import Mathlib

/-!
Shallow embedding of the Amadeus hotel MCP client
(`src/mcp-servers/amadeus-hotels/src/amadeus-client.ts`, enterprise
revision with the six-code consortium registry and the rate-code cap)
and of the tool handlers in `src/mcp-servers/amadeus-hotels/src/index.ts`.

Pure data and control flow are translated directly; network I/O is
abstracted as explicit `Except`-valued oracles passed to the functions
that perform it, so that "no upstream call is made" is expressed as
independence from the oracle.
-/

namespace ClawBot

/-- One entry of the `SUPPLIER_CODES` record: program name, description and
benefit list, as declared in the source. -/
structure SupplierInfo where
  name : String
  description : String
  benefits : List String
  deriving Repr, DecidableEq

/-- The `SUPPLIER_CODES` record, embedded as an association list in the
insertion order of the object literal (JS `Object.keys` order for
string keys). -/
def SUPPLIER_CODES : List (String × SupplierInfo) :=
  [ ("APS",
     { name := "Virtuoso"
       description := "Exclusive luxury travel network - VIP amenities and upgrades"
       benefits :=
         [ "Room upgrade at check-in (subject to availability)"
         , "Daily breakfast for two"
         , "Early check-in / late checkout (subject to availability)"
         , "USD 100 hotel credit per stay"
         , "Complimentary Wi-Fi" ] })
  , ("PP6",
     { name := "Four Seasons Preferred Partner"
       description := "Exclusive benefits at Four Seasons properties"
       benefits :=
         [ "Room upgrade at check-in (subject to availability)"
         , "Daily breakfast for two"
         , "Late checkout (subject to availability)"
         , "USD 100 hotel credit per stay"
         , "Complimentary Wi-Fi" ] })
  , ("3MF",
     { name := "Mandarin Oriental Fan Club"
       description := "Fan Club benefits at Mandarin Oriental properties worldwide"
       benefits :=
         [ "Room upgrade at check-in (subject to availability)"
         , "Daily breakfast for two"
         , "Early check-in / late checkout (subject to availability)"
         , "USD 100 hotel credit per stay"
         , "Complimentary pressing of two garments" ] })
  , ("1HZ",
     { name := "Hyatt Prive"
       description := "Exclusive amenities at Hyatt Hotels via Prive program"
       benefits :=
         [ "Room upgrade at check-in (subject to availability)"
         , "Daily breakfast for two"
         , "Early check-in / late checkout (subject to availability)"
         , "USD 100 property credit per stay"
         , "Complimentary Wi-Fi" ] })
  , ("W9E",
     { name := "SLH (Small Luxury Hotels)"
       description := "Boutique luxury experiences through Small Luxury Hotels of the World"
       benefits :=
         [ "Room upgrade at check-in (subject to availability)"
         , "Daily breakfast for two"
         , "Late checkout (subject to availability)"
         , "USD 100 hotel credit per stay"
         , "VIP recognition" ] })
  , ("PR2",
     { name := "Preferred Hotels & Resorts"
       description := "Preferred Hotels iPrefer benefits and amenities"
       benefits :=
         [ "Room upgrade at check-in (subject to availability)"
         , "Daily breakfast for two"
         , "Late checkout (subject to availability)"
         , "USD 100 property credit per stay"
         , "iPrefer loyalty points" ] }) ]

/-- `SUPPLIER_CODES[code]`: exact, case-sensitive lookup in the registry. -/
def lookupSupplier (code : String) : Option SupplierInfo :=
  (SUPPLIER_CODES.find? (fun p => p.1 == code)).map (·.2)

/-- The keys of the registry in declaration order (`Object.keys(SUPPLIER_CODES)`). -/
def supplierCodeKeys : List String := SUPPLIER_CODES.map (·.1)

/-! ### JS truthiness helpers

The handlers test raw fields with JS truthiness: `undefined` and the
empty string are falsy, `undefined` and an empty array give a falsy
`?.length`. -/

/-- Truthiness of an optional string (`!s` is true iff `s` is
`undefined` or `""`). -/
def truthyStr (s : Option String) : Bool :=
  match s with
  | none => false
  | some v => v != ""

/-- Truthiness of `xs?.length` for an optional array. -/
def truthyLen {α : Type} (xs : Option (List α)) : Bool :=
  match xs with
  | none => false
  | some l => l.length != 0

/-! ### First-occurrence deduplication (`[...new Set(xs)]`)

A JS `Set` iterates in insertion order, so spreading a `Set` built from
a list keeps the first occurrence of each element and drops the rest. -/

/-- Worker: `seen` holds the elements already emitted. -/
def jsSetDedupAux (seen : List String) : List String → List String
  | [] => []
  | x :: xs =>
      if x ∈ seen then jsSetDedupAux seen xs
      else x :: jsSetDedupAux (x :: seen) xs

/-- `[...new Set(l)]`: `l` with all but the first occurrence of each
element removed, order preserved. -/
def jsSetDedup (l : List String) : List String := jsSetDedupAux [] l

/-! ### JS string primitives

`String.prototype.trim` and `String.prototype.split(",")`, embedded as
structural recursion over the character list so that concrete instances
reduce in the kernel. -/

/-- JS `s.trim()`: strip leading and trailing whitespace. -/
def jsTrim (s : String) : String :=
  ⟨((s.data.dropWhile Char.isWhitespace).reverse.dropWhile Char.isWhitespace).reverse⟩

/-- Worker for `jsSplit`: `acc` holds the current field, reversed. -/
def jsSplitAux (sep : Char) : List Char → List Char → List String
  | [], acc => [⟨acc.reverse⟩]
  | x :: xs, acc =>
      if x = sep then ⟨acc.reverse⟩ :: jsSplitAux sep xs []
      else jsSplitAux sep xs (x :: acc)

/-- JS `s.split(sep)` for a one-character separator; `"".split(",") = [""]`. -/
def jsSplit (sep : Char) (s : String) : List String := jsSplitAux sep s.data []

/-! ### Data model (`types.ts`)

Only the fields the verified operations inspect are carried; all others
ride along unchanged in the source (object spread) and are represented
by the fields kept here. -/

/-- One room offer of a hotel entry. `supplierName` and
`isNegotiatedRate` are the client-side enrichment fields, absent on raw
upstream offers. -/
structure Offer where
  id : String
  checkInDate : String
  checkOutDate : String
  rateCode : Option String
  supplierName : Option String
  isNegotiatedRate : Option Bool
  boardType : Option String
  priceTotal : String
  priceCurrency : String
  deriving Repr, DecidableEq

/-- One hotel entry of the `/v3/shopping/hotel-offers` response
(`HotelOffer` in `types.ts`): hotel identity, availability flag and the
optional offer list. -/
structure HotelOffer where
  hotelId : String
  hotelName : String
  available : Bool
  offers : Option (List Offer)
  deriving Repr, DecidableEq

/-- A `HotelSearchResult` row of the hotel-list endpoints. -/
structure HotelSearchResult where
  hotelId : String
  name : String
  deriving Repr, DecidableEq

/-- Rich hotel content (`HotelContent` in `types.ts`), reduced to the
fields the claims inspect. -/
structure HotelContent where
  hotelId : Option String
  name : Option String
  deriving Repr, DecidableEq

/-! ### Offer enrichment (`getHotelOffers`, inner `map`) -/

/-- `offer.rateCode?.trim() ?? ""`. -/
def trimmedRateCode (o : Offer) : String := (o.rateCode.map jsTrim).getD ""

/-- Enrich one offer: spread the offer, then set `supplierName` to the
registry entry's name (absent on lookup failure) and `isNegotiatedRate`
to `Boolean(supplierInfo)`. -/
def enrichOffer (o : Offer) : Offer :=
  let supplierInfo := lookupSupplier (trimmedRateCode o)
  { o with
    supplierName := supplierInfo.map (·.name)
    isNegotiatedRate := some supplierInfo.isSome }

/-- Enrich one hotel entry: spread the hotel, mapping `enrichOffer` over
`hotel.offers?` (an absent offer list stays absent). -/
def enrichHotel (h : HotelOffer) : HotelOffer :=
  { h with offers := h.offers.map (fun os => os.map enrichOffer) }

/-- `h.offers?.length ?? 0`. -/
def offersLen (h : HotelOffer) : Nat := (h.offers.map List.length).getD 0

/-- The availability filter `h.available && (h.offers?.length ?? 0) > 0`. -/
def keepHotel (h : HotelOffer) : Bool := h.available && (offersLen h != 0)

/-- What one successful chunk contributes to `allResults`: the enriched
entries that pass the availability filter. -/
def processChunk (data : List HotelOffer) : List HotelOffer :=
  (data.map enrichHotel).filter keepHotel

/-! ### Batching (`getHotelOffers`) -/

/-- The upstream cap on ids per pricing request. -/
def BATCH_SIZE : Nat := 20

/-- The upstream cap on simultaneous rate codes per request. -/
def MAX_RATE_CODES : Nat := 6

/-- The chunking loop `for (i = 0; i < allIds.length; i += BATCH_SIZE)
batches.push(allIds.slice(i, i + BATCH_SIZE))`, written with a fuel
argument (`fuel ≥ allIds.length` suffices, each iteration consumes at
least one id) so that it is structural and reduces. -/
def mkBatchesAux : Nat → List String → List (List String)
  | 0, _ => []
  | _ + 1, [] => []
  | fuel + 1, ids => ids.take BATCH_SIZE :: mkBatchesAux fuel (ids.drop BATCH_SIZE)

/-- The batches of a property-id list: consecutive slices of at most
`BATCH_SIZE` ids. -/
def mkBatches (ids : List String) : List (List String) := mkBatchesAux ids.length ids

/-- The merged rate-code set:
`[...new Set([...(params.rateCodes ?? []), ...defaultSupplierCodes])].slice(0, MAX_RATE_CODES)`. -/
def mergedRateCodes (callerCodes defaults : List String) : List String :=
  (jsSetDedup (callerCodes ++ defaults)).take MAX_RATE_CODES

/-- The per-batch loop of `getHotelOffers`. The upstream pricing call is
abstracted as `fetch batchIdx batch`; the first component collects the
calls issued (one per batch, carrying that batch's ids), the second is
`allResults`. A failed chunk contributes nothing and processing
continues (the `try`/`catch` around the batch body). -/
def runBatches (fetch : Nat → List String → Except String (List HotelOffer)) :
    Nat → List (List String) → List (List String) × List HotelOffer
  | _, [] => ([], [])
  | i, b :: rest =>
      let contrib :=
        match fetch i b with
        | .ok data => processChunk data
        | .error _ => []
      let r := runBatches fetch (i + 1) rest
      (b :: r.1, contrib ++ r.2)

/-- `getHotelOffers`, with its upstream call log. -/
def getHotelOffersRun (fetch : Nat → List String → Except String (List HotelOffer))
    (hotelIds : List String) : List (List String) × List HotelOffer :=
  runBatches fetch 0 (mkBatches hotelIds)

/-- The aggregated result of `getHotelOffers`. -/
def getHotelOffers (fetch : Nat → List String → Except String (List HotelOffer))
    (hotelIds : List String) : List HotelOffer :=
  (getHotelOffersRun fetch hotelIds).2

/-! ### Token manager (`getAccessToken`) -/

/-- The token endpoint's reply (`access_token`, `expires_in` seconds). -/
structure AmadeusTokenResponse where
  access_token : String
  expires_in : Int
  deriving Repr, DecidableEq

/-- The client's token cache: `accessToken` and `tokenExpiresAt`
(epoch milliseconds, `0` initially). -/
structure TokenState where
  accessToken : Option String
  tokenExpiresAt : Int
  deriving Repr, DecidableEq

/-- The credential exchange: on success cache the token with
`tokenExpiresAt = now + expires_in * 1000`; on failure the error
propagates. -/
def fetchNewToken (now : Int) (exchange : Except String AmadeusTokenResponse) :
    Except String (String × TokenState) :=
  match exchange with
  | .error e => .error e
  | .ok r =>
      .ok (r.access_token,
           { accessToken := some r.access_token
             tokenExpiresAt := now + r.expires_in * 1000 })

/-- `getAccessToken`: return the cached token while
`now < tokenExpiresAt - 30_000`, otherwise perform a fresh exchange.
The network is consulted only through `exchange`. -/
def getAccessToken (st : TokenState) (now : Int)
    (exchange : Except String AmadeusTokenResponse) :
    Except String (String × TokenState) :=
  match st.accessToken with
  | some tok =>
      if now < st.tokenExpiresAt - 30000 then .ok (tok, st)
      else fetchNewToken now exchange
  | none => fetchNewToken now exchange

/-! ### Hotel content (`getHotelContent`) -/

/-- `getHotelContent`: the `try`/`catch` body. The upstream call is
abstracted as its outcome `response`; on success the result is
`response.data?.data ?? null`, on any error the `catch` returns `null`. -/
def getHotelContent (response : Except String (Option HotelContent)) :
    Option HotelContent :=
  match response with
  | .ok d => d
  | .error _ => none

/-! ### Default supplier codes (constructor) -/

/-- `AMADEUS_RATE_CODES.split(",").map(c => c.trim()).filter(Boolean)`. -/
def parseRateCodesEnv (raw : String) : List String :=
  ((jsSplit ',' raw).map jsTrim).filter (fun c => c != "")

/-- `defaultSupplierCodes` as assigned in the constructor: the parsed
`AMADEUS_RATE_CODES` env var when it is set and truthy, otherwise
`Object.keys(SUPPLIER_CODES)`. -/
def defaultSupplierCodes (envRateCodes : Option String) : List String :=
  if truthyStr envRateCodes then parseRateCodesEnv (envRateCodes.getD "")
  else supplierCodeKeys

/-! ### Tool handlers (`index.ts`)

Each handler validates its raw arguments (JS truthiness on the raw
fields) and only then calls the client; the client call is abstracted as
`upstream`/`fetch`, so a result independent of that argument was
produced without any upstream call. -/

/-- The `search_hotels_by_city` handler's guard and dispatch. -/
def searchHotelsByCityTool (cityCode : Option String)
    (upstream : String → List HotelSearchResult) :
    Except String (List HotelSearchResult) :=
  if truthyStr cityCode then .ok (upstream (cityCode.getD ""))
  else .error "cityCode is required"

/-- The `search_hotels_by_geocode` handler's guard
(`latitude === undefined || longitude === undefined`) and dispatch. -/
def searchHotelsByGeocodeTool (latitude longitude : Option Int)
    (upstream : Int → Int → List HotelSearchResult) :
    Except String (List HotelSearchResult) :=
  match latitude, longitude with
  | some lat, some lon => .ok (upstream lat lon)
  | _, _ => .error "latitude and longitude are required"

/-- The `get_hotel_offers` handler's guard
(`!params.hotelIds?.length || !params.checkInDate || !params.checkOutDate`)
and dispatch to the client's `getHotelOffers`. -/
def getHotelOffersTool (hotelIds : Option (List String))
    (checkInDate checkOutDate : Option String)
    (fetch : Nat → List String → Except String (List HotelOffer)) :
    Except String (List HotelOffer) :=
  if truthyLen hotelIds && truthyStr checkInDate && truthyStr checkOutDate then
    .ok (getHotelOffers fetch (hotelIds.getD []))
  else .error "hotelIds, checkInDate, and checkOutDate are required"

/-- The `get_hotel_offer_details` handler's guard and dispatch. -/
def getHotelOfferDetailsTool (offerId : Option String)
    (upstream : String → Offer) : Except String Offer :=
  if truthyStr offerId then .ok (upstream (offerId.getD ""))
  else .error "offerId is required"

/-- The `get_hotel_content` handler's guard and dispatch to the client's
`getHotelContent`. -/
def getHotelContentTool (hotelId : Option String)
    (upstream : String → Except String (Option HotelContent)) :
    Except String (Option HotelContent) :=
  if truthyStr hotelId then .ok (getHotelContent (upstream (hotelId.getD "")))
  else .error "hotelId is required"

/-! ### Concrete sample data for witness instances -/

/-- A raw offer carrying a rate code that trims to a registry key. -/
def oVirtuoso : Offer :=
  { id := "OF1"
    checkInDate := "2026-03-01"
    checkOutDate := "2026-03-05"
    rateCode := some " APS "
    supplierName := none
    isNegotiatedRate := none
    boardType := none
    priceTotal := "950.00"
    priceCurrency := "USD" }

/-- A raw offer with no rate code at all. -/
def oStandard : Offer :=
  { id := "OF2"
    checkInDate := "2026-03-01"
    checkOutDate := "2026-03-05"
    rateCode := none
    supplierName := none
    isNegotiatedRate := none
    boardType := some "BREAKFAST"
    priceTotal := "410.00"
    priceCurrency := "USD" }

/-- An available hotel entry with two offers. -/
def exHotel : HotelOffer :=
  { hotelId := "HLON001"
    hotelName := "Sample Hotel"
    available := true
    offers := some [oVirtuoso, oStandard] }

/-- An upstream pricing oracle that always succeeds with no entries. -/
def exFetchOk : Nat → List String → Except String (List HotelOffer) :=
  fun _ _ => .ok []

/-- An upstream pricing oracle that always succeeds with one entry. -/
def exFetchOne : Nat → List String → Except String (List HotelOffer) :=
  fun _ _ => .ok [exHotel]

/-- An upstream pricing oracle that fails on the second chunk only. -/
def exFetchMid : Nat → List String → Except String (List HotelOffer) :=
  fun i _ => if i == 1 then .error "simulated upstream error" else .ok [exHotel]

/-- A 41-id property list, spanning three chunks of the 20-id cap. -/
def exIds41 : List String := List.replicate 41 "HLON001"

/-!
## Theorems

First the library of facts about the embedded operations, then one
theorem (with witness / counterexample instances) per specification
claim.
-/

theorem mem_jsSetDedupAux {x : String} {seen l : List String} :
    x ∈ jsSetDedupAux seen l ↔ x ∈ l ∧ x ∉ seen := by
  induction l generalizing seen with
  | nil => simp [jsSetDedupAux]
  | cons y ys ih =>
      by_cases hy : y ∈ seen
      · simp only [jsSetDedupAux, if_pos hy, ih, List.mem_cons]
        constructor
        · rintro ⟨hx, hs⟩
          exact ⟨Or.inr hx, hs⟩
        · rintro ⟨hx | hx, hs⟩
          · exact absurd (hx ▸ hy) hs
          · exact ⟨hx, hs⟩
      · simp only [jsSetDedupAux, if_neg hy, List.mem_cons, ih]
        constructor
        · rintro (rfl | ⟨hx, hs⟩)
          · exact ⟨Or.inl rfl, hy⟩
          · exact ⟨Or.inr hx, fun hc => hs (Or.inr hc)⟩
        · rintro ⟨rfl | hx, hs⟩
          · exact Or.inl rfl
          · by_cases hxy : x = y
            · exact Or.inl hxy
            · exact Or.inr ⟨hx, fun hc => hc.elim hxy hs⟩

theorem mem_jsSetDedup {x : String} {l : List String} :
    x ∈ jsSetDedup l ↔ x ∈ l := by
  simp [jsSetDedup, mem_jsSetDedupAux]

theorem nodup_jsSetDedupAux (seen l : List String) :
    (jsSetDedupAux seen l).Nodup := by
  induction l generalizing seen with
  | nil => simp [jsSetDedupAux]
  | cons y ys ih =>
      by_cases hy : y ∈ seen
      · simp only [jsSetDedupAux, if_pos hy]
        exact ih seen
      · simp only [jsSetDedupAux, if_neg hy]
        refine List.nodup_cons.mpr ⟨?_, ih (y :: seen)⟩
        intro hmem
        exact (mem_jsSetDedupAux.mp hmem).2 (List.mem_cons_self y seen)

theorem nodup_jsSetDedup (l : List String) : (jsSetDedup l).Nodup :=
  nodup_jsSetDedupAux [] l

theorem jsSetDedupAux_append (c d : List String) :
    ∀ seen, ∃ s2, jsSetDedupAux seen (c ++ d) =
        jsSetDedupAux seen c ++ jsSetDedupAux s2 d ∧
      ∀ x, x ∈ s2 ↔ x ∈ c ∨ x ∈ seen := by
  induction c with
  | nil =>
      intro seen
      exact ⟨seen, by simp [jsSetDedupAux], fun x => by simp⟩
  | cons y ys ih =>
      intro seen
      by_cases hy : y ∈ seen
      · obtain ⟨s2, heq, hiff⟩ := ih seen
        refine ⟨s2, ?_, ?_⟩
        · simp only [List.cons_append, jsSetDedupAux, if_pos hy]
          exact heq
        · intro x
          rw [hiff x]
          constructor
          · rintro (hx | hs)
            · exact Or.inl (List.mem_cons_of_mem _ hx)
            · exact Or.inr hs
          · rintro (hx | hs)
            · rcases List.mem_cons.mp hx with rfl | hx2
              · exact Or.inr hy
              · exact Or.inl hx2
            · exact Or.inr hs
      · obtain ⟨s2, heq, hiff⟩ := ih (y :: seen)
        refine ⟨s2, ?_, ?_⟩
        · simp only [List.cons_append, jsSetDedupAux, if_neg hy]
          exact congrArg (List.cons y) heq
        · intro x
          rw [hiff x]
          simp only [List.mem_cons]
          tauto

theorem mkBatchesAux_join :
    ∀ (fuel : Nat) (ids : List String), ids.length ≤ fuel →
      (mkBatchesAux fuel ids).flatten = ids := by
  intro fuel
  induction fuel with
  | zero =>
      intro ids h
      rw [List.length_eq_zero.mp (Nat.le_zero.mp h)]
      simp [mkBatchesAux]
  | succ n ih =>
      intro ids h
      cases ids with
      | nil => simp [mkBatchesAux]
      | cons x xs =>
          have hlen : ((x :: xs).drop BATCH_SIZE).length ≤ n := by
            simp only [List.length_drop, List.length_cons, BATCH_SIZE]
            simp only [List.length_cons] at h
            omega
          simp only [mkBatchesAux, List.flatten_cons]
          rw [ih _ hlen, List.take_append_drop]

theorem mkBatches_join (ids : List String) : (mkBatches ids).flatten = ids :=
  mkBatchesAux_join ids.length ids le_rfl

theorem mkBatchesAux_length :
    ∀ (fuel : Nat) (ids : List String), ids.length ≤ fuel →
      (mkBatchesAux fuel ids).length = (ids.length + (BATCH_SIZE - 1)) / BATCH_SIZE := by
  intro fuel
  induction fuel with
  | zero =>
      intro ids h
      rw [List.length_eq_zero.mp (Nat.le_zero.mp h)]
      simp [mkBatchesAux, BATCH_SIZE]
  | succ n ih =>
      intro ids h
      cases ids with
      | nil => simp [mkBatchesAux, BATCH_SIZE]
      | cons x xs =>
          have hlen : ((x :: xs).drop BATCH_SIZE).length ≤ n := by
            simp only [List.length_drop, List.length_cons, BATCH_SIZE]
            simp only [List.length_cons] at h
            omega
          simp only [mkBatchesAux, List.length_cons]
          rw [ih _ hlen]
          simp only [List.length_drop, List.length_cons, BATCH_SIZE]
          omega

theorem mkBatches_length (ids : List String) :
    (mkBatches ids).length = (ids.length + (BATCH_SIZE - 1)) / BATCH_SIZE :=
  mkBatchesAux_length ids.length ids le_rfl

theorem mkBatchesAux_size :
    ∀ (fuel : Nat) (ids : List String) (b : List String),
      b ∈ mkBatchesAux fuel ids → b.length ≤ BATCH_SIZE := by
  intro fuel
  induction fuel with
  | zero => intro ids b hb; simp [mkBatchesAux] at hb
  | succ n ih =>
      intro ids b hb
      cases ids with
      | nil => simp [mkBatchesAux] at hb
      | cons x xs =>
          simp only [mkBatchesAux, List.mem_cons] at hb
          rcases hb with rfl | hb
          · exact List.length_take_le BATCH_SIZE (x :: xs)
          · exact ih _ _ hb

theorem runBatches_calls (fetch : Nat → List String → Except String (List HotelOffer)) :
    ∀ (bs : List (List String)) (i : Nat), (runBatches fetch i bs).1 = bs := by
  intro bs
  induction bs with
  | nil => intro i; rfl
  | cons b rest ih => intro i; simp [runBatches, ih]

theorem runBatches_results_keep
    (fetch : Nat → List String → Except String (List HotelOffer)) :
    ∀ (bs : List (List String)) (i : Nat) (h : HotelOffer),
      h ∈ (runBatches fetch i bs).2 → keepHotel h = true := by
  intro bs
  induction bs with
  | nil => intro i h hm; simp [runBatches] at hm
  | cons b rest ih =>
      intro i h hm
      simp only [runBatches] at hm
      rcases List.mem_append.mp hm with hc | hr
      · revert hc
        cases hfb : fetch i b with
        | ok data =>
            intro hc
            exact (List.mem_filter.mp hc).2
        | error e => intro hc; simp at hc
      · exact ih (i + 1) h hr

/-! ## Claim theorems -/

/-- C1: for every list of property identifiers of length L, `getHotelOffers`
issues exactly ceil(L/20) upstream pricing calls (one per batch), each
carrying at most 20 identifiers, and the batches concatenate back to the
input list — they are consecutive slices of the input in original order. -/
theorem C1_batchPartition (fetch : Nat → List String → Except String (List HotelOffer))
    (hotelIds : List String) :
    ((getHotelOffersRun fetch hotelIds).1).length = (hotelIds.length + 19) / 20 ∧
    (∀ b, b ∈ (getHotelOffersRun fetch hotelIds).1 → b.length ≤ 20) ∧
    ((getHotelOffersRun fetch hotelIds).1).flatten = hotelIds := by
  have hc : (getHotelOffersRun fetch hotelIds).1 = mkBatches hotelIds :=
    runBatches_calls fetch (mkBatches hotelIds) 0
  rw [hc]
  exact ⟨mkBatches_length hotelIds,
         fun b hb => mkBatchesAux_size hotelIds.length hotelIds b hb,
         mkBatches_join hotelIds⟩

/-- C1 witness: a three-id query is one call whose ids are the input. -/
theorem C1_batchPartition_witness :
    (getHotelOffersRun exFetchOk ["HA", "HB", "HC"]).1.flatten = ["HA", "HB", "HC"] ∧
    (["HA", "HB", "HC"] : List String).length ≤ 20 :=
  ⟨(C1_batchPartition exFetchOk ["HA", "HB", "HC"]).2.2,
   (C1_batchPartition exFetchOk ["HA", "HB", "HC"]).2.1 ["HA", "HB", "HC"] (by decide)⟩

/-- C2: the merged rate-code set sent upstream is duplicate-free; merging
deduplicates by first occurrence with every caller-supplied code listed
before any default-only code, and truncation to the `MAX_RATE_CODES` cap
keeps every caller-supplied code that fits ahead of any default code. -/
theorem C2_mergedRateCodes (callerCodes defaults : List String) :
    (mergedRateCodes callerCodes defaults).Nodup ∧
    (jsSetDedup (callerCodes ++ defaults)).Nodup ∧
    (∀ x, x ∈ jsSetDedup callerCodes ↔ x ∈ callerCodes) ∧
    ∃ tail,
      jsSetDedup (callerCodes ++ defaults) = jsSetDedup callerCodes ++ tail ∧
      (∀ x, x ∈ tail → x ∈ defaults ∧ x ∉ callerCodes) ∧
      mergedRateCodes callerCodes defaults =
        (jsSetDedup callerCodes).take MAX_RATE_CODES ++
          tail.take (MAX_RATE_CODES - (jsSetDedup callerCodes).length) := by
  obtain ⟨s2, heq, hiff⟩ := jsSetDedupAux_append callerCodes defaults []
  have hdd : jsSetDedup (callerCodes ++ defaults) =
      jsSetDedup callerCodes ++ jsSetDedupAux s2 defaults := heq
  refine ⟨?_, nodup_jsSetDedup _, fun x => mem_jsSetDedup,
          jsSetDedupAux s2 defaults, hdd, ?_, ?_⟩
  · exact List.Nodup.sublist (List.take_sublist _ _) (nodup_jsSetDedup _)
  · intro x hx
    have hm := mem_jsSetDedupAux.mp hx
    refine ⟨hm.1, fun hc => hm.2 ?_⟩
    rw [hiff x]
    exact Or.inl hc
  · simp only [mergedRateCodes, hdd, List.take_append_eq_append_take]

/-- C2 witness: merging a caller code with the registry defaults yields a
duplicate-free set. -/
theorem C2_mergedRateCodes_witness :
    (mergedRateCodes ["RAC", "APS"] supplierCodeKeys).Nodup :=
  (C2_mergedRateCodes ["RAC", "APS"] supplierCodeKeys).1

/-- C3: enrichment sets `isNegotiatedRate = true` and `supplierName` to the
registry entry's program name when the trimmed rate code is in the registry,
sets `isNegotiatedRate = false` and leaves `supplierName` absent when the
trimmed code is unknown or the code is absent, and changes no other field. -/
theorem C3_enrich (o : Offer) :
    (∀ info, lookupSupplier (trimmedRateCode o) = some info →
        (enrichOffer o).isNegotiatedRate = some true ∧
        (enrichOffer o).supplierName = some info.name) ∧
    (lookupSupplier (trimmedRateCode o) = none →
        (enrichOffer o).isNegotiatedRate = some false ∧
        (enrichOffer o).supplierName = none) ∧
    (enrichOffer o).id = o.id ∧
    (enrichOffer o).checkInDate = o.checkInDate ∧
    (enrichOffer o).checkOutDate = o.checkOutDate ∧
    (enrichOffer o).rateCode = o.rateCode ∧
    (enrichOffer o).boardType = o.boardType ∧
    (enrichOffer o).priceTotal = o.priceTotal ∧
    (enrichOffer o).priceCurrency = o.priceCurrency := by
  refine ⟨?_, ?_, rfl, rfl, rfl, rfl, rfl, rfl, rfl⟩
  · intro info hinfo
    constructor <;> simp [enrichOffer, hinfo]
  · intro hnone
    constructor <;> simp [enrichOffer, hnone]

/-- C3 witness: a `" APS "` rate code enriches to the Virtuoso negotiated
rate; an absent rate code enriches to a non-negotiated offer with no
supplier name. -/
theorem C3_enrich_witness :
    ((enrichOffer oVirtuoso).isNegotiatedRate = some true ∧
     (enrichOffer oVirtuoso).supplierName = some "Virtuoso") ∧
    ((enrichOffer oStandard).isNegotiatedRate = some false ∧
     (enrichOffer oStandard).supplierName = none) :=
  ⟨(C3_enrich oVirtuoso).1 _ rfl, (C3_enrich oStandard).2.1 rfl⟩

/-- C4: every hotel entry in an aggregated `getHotelOffers` result is
available and carries at least one offer; unavailable entries and entries
with an absent or empty offer list never appear. -/
theorem C4_availableFilter (fetch : Nat → List String → Except String (List HotelOffer))
    (hotelIds : List String) (h : HotelOffer)
    (hmem : h ∈ getHotelOffers fetch hotelIds) :
    h.available = true ∧ ∃ os, h.offers = some os ∧ os ≠ [] := by
  have hk : keepHotel h = true :=
    runBatches_results_keep fetch (mkBatches hotelIds) 0 h hmem
  simp only [keepHotel, Bool.and_eq_true, bne_iff_ne, ne_eq] at hk
  obtain ⟨hav, hlen⟩ := hk
  refine ⟨hav, ?_⟩
  cases ho : h.offers with
  | none => exact absurd (by simp [offersLen, ho]) hlen
  | some os =>
      refine ⟨os, rfl, ?_⟩
      intro hnil
      exact hlen (by simp [offersLen, ho, hnil])

/-- C4 witness: the sample available hotel survives into a concrete
aggregated result, and the claim applies to it. -/
theorem C4_availableFilter_witness :
    (enrichHotel exHotel).available = true :=
  (C4_availableFilter exFetchOne ["HLON001"] (enrichHotel exHotel) (by decide)).1

theorem runBatches_eq_flatten
    (fetch : Nat → List String → Except String (List HotelOffer)) :
    ∀ (bs : List (List String)) (i : Nat),
      (runBatches fetch i bs).2 =
        ((List.enumFrom i bs).map (fun p =>
            match fetch p.1 p.2 with
            | .ok data => processChunk data
            | .error _ => [])).flatten := by
  intro bs
  induction bs with
  | nil => intro i; rfl
  | cons b rest ih =>
      intro i
      simp only [runBatches, List.enumFrom_cons, List.map_cons, List.flatten_cons, ih]

/-- C5: for every pricing query and every mix of failing and succeeding
chunks, the call still returns (it is a total function — chunk failures
are swallowed, not raised) and the aggregated result is exactly the
concatenation, in chunk order, of each chunk's contribution: a failed
chunk contributes nothing and a successful chunk contributes its
filtered, enriched offers in their per-chunk order. In particular, when
chunk 2 of 3 fails and chunks 1 and 3 succeed, the result is exactly
chunk 1's then chunk 3's filtered offers. -/
theorem C5_partialFailure (fetch : Nat → List String → Except String (List HotelOffer))
    (hotelIds : List String) :
    (getHotelOffers fetch hotelIds =
      ((mkBatches hotelIds).enum.map (fun p =>
          match fetch p.1 p.2 with
          | .ok data => processChunk data
          | .error _ => [])).flatten) ∧
    (∀ (b0 b1 b2 : List String) (r0 r2 : List HotelOffer) (e : String),
        mkBatches hotelIds = [b0, b1, b2] →
        fetch 0 b0 = .ok r0 → fetch 1 b1 = .error e → fetch 2 b2 = .ok r2 →
        getHotelOffers fetch hotelIds = processChunk r0 ++ processChunk r2) := by
  constructor
  · exact runBatches_eq_flatten fetch (mkBatches hotelIds) 0
  · intro b0 b1 b2 r0 r2 e hb h0 h1 h2
    unfold getHotelOffers getHotelOffersRun
    rw [hb]
    simp [runBatches, h0, h1, h2]

/-- C5 witness: a 41-id query (three chunks) whose second chunk fails
aggregates exactly the first and third chunks' filtered offers. -/
theorem C5_partialFailure_witness :
    getHotelOffers exFetchMid exIds41 =
      processChunk [exHotel] ++ processChunk [exHotel] :=
  (C5_partialFailure exFetchMid exIds41).2
    (List.replicate 20 "HLON001") (List.replicate 20 "HLON001") ["HLON001"]
    [exHotel] [exHotel] "simulated upstream error"
    (by decide) rfl rfl rfl

/-- C6: `getAccessToken` returns the cached token unchanged, independently
of the exchange oracle, whenever `now < tokenExpiresAt - 30_000`, and
otherwise performs a fresh credential exchange; in particular 40 seconds of
remaining validity reuses the cache and 20 seconds triggers a refresh. -/
theorem C6_tokenReuse (st : TokenState) (now : Int)
    (exchange : Except String AmadeusTokenResponse) (tok : String)
    (hcached : st.accessToken = some tok) :
    (now < st.tokenExpiresAt - 30000 →
        getAccessToken st now exchange = .ok (tok, st)) ∧
    (¬ now < st.tokenExpiresAt - 30000 →
        getAccessToken st now exchange = fetchNewToken now exchange) ∧
    (st.tokenExpiresAt = now + 40000 →
        getAccessToken st now exchange = .ok (tok, st)) ∧
    (st.tokenExpiresAt = now + 20000 →
        getAccessToken st now exchange = fetchNewToken now exchange) := by
  refine ⟨?_, ?_, ?_, ?_⟩
  · intro hlt
    simp [getAccessToken, hcached, hlt]
  · intro hge
    simp [getAccessToken, hcached, hge]
  · intro h40
    have hlt : now < st.tokenExpiresAt - 30000 := by omega
    simp [getAccessToken, hcached, hlt]
  · intro h20
    have hge : ¬ now < st.tokenExpiresAt - 30000 := by omega
    simp [getAccessToken, hcached, hge]

/-- C6 witness: a cache 40 s from expiry is returned without touching the
(failing) exchange oracle; a cache 20 s from expiry goes through the
exchange. -/
theorem C6_tokenReuse_witness :
    getAccessToken { accessToken := some "cached-token", tokenExpiresAt := 1040000 }
        1000000 (.error "auth endpoint down")
      = .ok ("cached-token",
             { accessToken := some "cached-token", tokenExpiresAt := 1040000 }) ∧
    getAccessToken { accessToken := some "cached-token", tokenExpiresAt := 1020000 }
        1000000 (.ok { access_token := "fresh-token", expires_in := 1799 })
      = fetchNewToken 1000000 (.ok { access_token := "fresh-token", expires_in := 1799 }) :=
  ⟨(C6_tokenReuse _ 1000000 _ "cached-token" rfl).2.2.1 rfl,
   (C6_tokenReuse _ 1000000 _ "cached-token" rfl).2.2.2 rfl⟩

/-- C7 counterexample: the caller-facing `get_hotel_offers` handler rejects
an empty `hotelIds` list with the validation error instead of returning an
empty result (`!params.hotelIds?.length` is true for `[]`). -/
theorem C7_counterexample :
    getHotelOffersTool (some []) (some "2026-03-01") (some "2026-03-05") exFetchOk
        = .error "hotelIds, checkInDate, and checkOutDate are required" ∧
    getHotelOffersTool (some []) (some "2026-03-01") (some "2026-03-05") exFetchOk ≠
      .ok [] :=
  ⟨rfl, by simp [getHotelOffersTool, truthyLen]⟩

/-- C7 (amended): the client-level `getHotelOffers` on an empty property-id
list returns an empty result and issues zero upstream calls, while the
caller-facing `get_hotel_offers` handler rejects an empty `hotelIds` list
with a validation error before consulting the upstream. -/
theorem C7_emptyIds (fetch : Nat → List String → Except String (List HotelOffer)) :
    getHotelOffers fetch [] = [] ∧
    (getHotelOffersRun fetch []).1 = [] ∧
    (∀ (checkIn checkOut : Option String)
        (fetch2 : Nat → List String → Except String (List HotelOffer)),
        getHotelOffersTool (some ([] : List String)) checkIn checkOut fetch2 =
          .error "hotelIds, checkInDate, and checkOutDate are required") := by
  refine ⟨rfl, rfl, ?_⟩
  intro ci co f2
  simp [getHotelOffersTool, truthyLen]

/-- C8: each caller-facing operation raises its descriptive validation
error when a required field is missing, for every upstream oracle — i.e.
before any upstream call is made. -/
theorem C8_requiredFields :
    (∀ up : String → List HotelSearchResult,
        searchHotelsByCityTool none up = .error "cityCode is required") ∧
    (∀ (lon : Option Int) (up : Int → Int → List HotelSearchResult),
        searchHotelsByGeocodeTool none lon up =
          .error "latitude and longitude are required") ∧
    (∀ (lat : Option Int) (up : Int → Int → List HotelSearchResult),
        searchHotelsByGeocodeTool lat none up =
          .error "latitude and longitude are required") ∧
    (∀ (ci co : Option String)
        (f : Nat → List String → Except String (List HotelOffer)),
        getHotelOffersTool none ci co f =
          .error "hotelIds, checkInDate, and checkOutDate are required") ∧
    (∀ (ids : Option (List String)) (co : Option String)
        (f : Nat → List String → Except String (List HotelOffer)),
        getHotelOffersTool ids none co f =
          .error "hotelIds, checkInDate, and checkOutDate are required") ∧
    (∀ (ids : Option (List String)) (ci : Option String)
        (f : Nat → List String → Except String (List HotelOffer)),
        getHotelOffersTool ids ci none f =
          .error "hotelIds, checkInDate, and checkOutDate are required") ∧
    (∀ up : String → Offer,
        getHotelOfferDetailsTool none up = .error "offerId is required") ∧
    (∀ up : String → Except String (Option HotelContent),
        getHotelContentTool none up = .error "hotelId is required") := by
  refine ⟨fun up => rfl, ?_, ?_, ?_, ?_, ?_, fun up => rfl, fun up => rfl⟩
  · intro lon up
    cases lon <;> rfl
  · intro lat up
    cases lat <;> rfl
  · intro ci co f
    rfl
  · intro ids co f
    simp [getHotelOffersTool, truthyStr]
  · intro ids ci f
    simp [getHotelOffersTool, truthyStr]

/-- C9: `getHotelContent` never propagates an upstream failure — any error
resolves to the absence value `none` — and a non-absent result arises only
from a successful upstream response that carried content. -/
theorem C9_contentFallback (response : Except String (Option HotelContent)) :
    (∀ e, response = .error e → getHotelContent response = none) ∧
    (∀ c, getHotelContent response = some c → response = .ok (some c)) := by
  cases response with
  | ok d =>
      refine ⟨fun e he => by simp at he, fun c hc => ?_⟩
      rw [show getHotelContent (.ok d) = d from rfl] at hc
      rw [hc]
  | error e2 =>
      exact ⟨fun e he => rfl, fun c hc => by simp [getHotelContent] at hc⟩

/-- C9 witness: a failed content fetch resolves to absence. -/
theorem C9_contentFallback_witness :
    getHotelContent (.error "HTTP 500") = none :=
  (C9_contentFallback (.error "HTTP 500")).1 "HTTP 500" rfl

/-- C10 counterexample: a configured `AMADEUS_RATE_CODES` list is not
deduplicated — `"APS,APS"` yields the duplicate-bearing default set
`["APS", "APS"]`. -/
theorem C10_counterexample :
    defaultSupplierCodes (some "APS,APS") = ["APS", "APS"] ∧
    ¬ (defaultSupplierCodes (some "APS,APS")).Nodup :=
  ⟨by decide, by decide⟩

/-- C10 (amended): without configuration the default code set is exactly
the registry's codes (duplicate-free); with a non-empty configured list it
is that list split on commas, trimmed, with empty entries removed, order
preserved — duplicates in the configured list are preserved, not removed. -/
theorem C10_defaultCodes :
    defaultSupplierCodes none = supplierCodeKeys ∧
    defaultSupplierCodes (some "") = supplierCodeKeys ∧
    (defaultSupplierCodes none).Nodup ∧
    (∀ raw, raw ≠ "" →
        defaultSupplierCodes (some raw) =
          ((jsSplit ',' raw).map jsTrim).filter (fun c => c != "")) ∧
    (∀ raw, raw ≠ "" →
        List.Sublist (defaultSupplierCodes (some raw)) ((jsSplit ',' raw).map jsTrim)) ∧
    (∀ raw c, raw ≠ "" → c ∈ defaultSupplierCodes (some raw) → c ≠ "") := by
  have hparse : ∀ raw : String, raw ≠ "" →
      defaultSupplierCodes (some raw) =
        ((jsSplit ',' raw).map jsTrim).filter (fun c => c != "") := by
    intro raw hraw
    have ht : truthyStr (some raw) = true := by simp [truthyStr, hraw]
    simp [defaultSupplierCodes, ht, parseRateCodesEnv]
  refine ⟨rfl, rfl, by decide, hparse, ?_, ?_⟩
  · intro raw hraw
    rw [hparse raw hraw]
    exact List.filter_sublist _
  · intro raw c hraw hc
    rw [hparse raw hraw] at hc
    have := List.of_mem_filter hc
    exact bne_iff_ne.mp this

/-- C10 witness: a configured list with whitespace and a duplicate parses
to the trimmed, duplicate-preserving code list. -/
theorem C10_defaultCodes_witness :
    defaultSupplierCodes (some "RAC, RAC") =
      ((jsSplit ',' "RAC, RAC").map jsTrim).filter (fun c => c != "") :=
  C10_defaultCodes.2.2.2.1 "RAC, RAC" (by decide)

end ClawBot
